import Mathlib

/-!
Shallow embedding of the assistant registry, request router and health
aggregator of `svelte-langserve` (files
`examples/langgraph-backend/src/svelte_langgraph/assistant_manager.py` and
`examples/langgraph-backend/src/svelte_langgraph/app.py`), together with
theorems settling the specification claims about them.

Python dictionaries are modelled as association lists (insertion order
preserved, first binding wins on lookup, as CPython guarantees); Python
exceptions as a structure carrying the exception class information the code
inspects (`AttributeError` or not) and the `str(e)` message; `Optional`
values as `Option`; Python truthiness of an `Optional[str]` as
"present and non-empty".
-/

namespace SvelteLanggraph

/-- A Python exception, reduced to what the embedded code observes of it:
whether it is an `AttributeError` (the only class `hasattr` distinguishes)
and its `str(e)` message. -/
structure PyExc where
  isAttrError : Bool
  msg : String
deriving Repr, DecidableEq

/-- Python truthiness of an `Optional[str]` value: `None` and the empty
string are falsy, every other string is truthy. -/
def pyTruthy : Option String → Bool
  | none => false
  | some s => s ≠ ""

/-- Python `dict.get(k)`: left-to-right lookup in an association list,
`None` when the key is absent. -/
def dict_get {κ α : Type} [DecidableEq κ] (d : List (κ × α)) (k : κ) : Option α :=
  match d with
  | [] => none
  | (k', v) :: rest => if k' = k then some v else dict_get rest k

/-- Python `d[k] = v`: replace the first binding of `k` in place, or append
a new binding at the end (CPython insertion-order semantics). -/
def dict_set {κ α : Type} [DecidableEq κ] (d : List (κ × α)) (k : κ) (v : α) :
    List (κ × α) :=
  match d with
  | [] => [(k, v)]
  | (k', v') :: rest =>
      if k' = k then (k, v) :: rest else (k', v') :: dict_set rest k v

/-- Python `del d[k]`: remove every binding of `k` (a dict has at most one). -/
def dict_del {κ α : Type} [DecidableEq κ] (d : List (κ × α)) (k : κ) :
    List (κ × α) :=
  d.filter (fun p => decide (p.1 ≠ k))

/-- Outcome of the attribute access `graph.nodes`: either the attribute
exists and the access succeeds, or the access raises an exception (a graph
without a `nodes` attribute raises an `AttributeError`). -/
inductive AttrAccess where
  | ok
  | raises (e : PyExc)
deriving Repr, DecidableEq

/-- The value a compiled graph's node returns: the state dict, of which the
router reads only `result.get("response", "")`.  `response := none` models a
result dict without a `"response"` key. -/
structure GraphResult where
  response : Option String
deriving Repr, DecidableEq

/-- A LangGraph `CompiledGraph`, reduced to the two behaviours the embedded
code exercises: the attribute access `graph.nodes` used by the health probe,
and `await graph.ainvoke(input_data, config)` used by the router.  The first
argument of `ainvoke` is the content of the single `HumanMessage` in
`input_data["messages"]`; the second is `configurable["thread_id"]` of the
`RunnableConfig` when one is passed, `none` when `ainvoke` is called without
a config. -/
structure CompiledGraph where
  nodesAttr : AttrAccess
  ainvoke : String → Option String → Except PyExc GraphResult

/-- One metadata dictionary of `GraphManager.assistant_metadata`.  The
`has_tools` key is present only for some assistants, hence `Option Bool`. -/
structure Meta where
  name : String
  description : String
  type : String
  supports_streaming : Bool
  supports_persistence : Bool
  has_tools : Option Bool
deriving Repr, DecidableEq

/-- `GraphManager` state after `__init__`: the two dictionaries
`self.assistants` and `self.assistant_metadata`. -/
structure GraphManager where
  assistants : List (String × CompiledGraph)
  assistant_metadata : List (String × Meta)

/-- `GraphManager.get_assistant`: `self.assistants.get(assistant_id)`. -/
def GraphManager.get_assistant (m : GraphManager) (assistant_id : String) :
    Option CompiledGraph :=
  dict_get m.assistants assistant_id

/-- `GraphManager.get_assistant_metadata`:
`self.assistant_metadata.get(assistant_id)`. -/
def GraphManager.get_assistant_metadata (m : GraphManager) (assistant_id : String) :
    Option Meta :=
  dict_get m.assistant_metadata assistant_id

/-- One entry of the dict `GraphManager.health_check` returns:
`{"status": ..., "error": ...}`. -/
structure HealthRecord where
  status : String
  error : Option String
deriving Repr, DecidableEq

/-- The body of the `try` in `GraphManager.health_check`:
`if hasattr(graph, "nodes"): _ = graph.nodes`.  Python's `hasattr` performs
the attribute access, returns `False` when it raises an `AttributeError`,
`True` when it succeeds, and lets any other exception propagate; the
subsequent `_ = graph.nodes` repeats the (deterministic) access. -/
def probe_graph (g : CompiledGraph) : Except PyExc Unit :=
  match g.nodesAttr with
  | .ok => .ok ()
  | .raises e => if e.isAttrError then .ok () else .error e

/-- The per-assistant `try`/`except` of `GraphManager.health_check`: a
successful probe yields `{"status": "healthy", "error": None}`, a raised
exception `e` yields `{"status": "unhealthy", "error": str(e)}`. -/
def health_record (g : CompiledGraph) : HealthRecord :=
  match probe_graph g with
  | .ok _ => { status := "healthy", error := none }
  | .error e => { status := "unhealthy", error := some e.msg }

/-- `GraphManager.health_check`: builds `health_status` by iterating over
`self.assistants.items()` in insertion order. -/
def GraphManager.health_check (m : GraphManager) : List (String × HealthRecord) :=
  m.assistants.map (fun p => (p.1, health_record p.2))

/-- The aggregation in the `/health` endpoint of `app.py`:
`"healthy" if all(status["status"] == "healthy" for ...) else "degraded"`. -/
def overall_status (assistant_health : List (String × HealthRecord)) : String :=
  if assistant_health.all (fun p => p.2.status == "healthy") then "healthy"
  else "degraded"

/-- The body of the `/health` endpoint `health_check` in `app.py`. -/
structure HealthResponse where
  status : String
  assistants : List String
  assistant_health : List (String × HealthRecord)
  version : String
  backend_type : String
deriving Repr, DecidableEq

/-- The `/health` endpoint of `app.py`: runs
`assistant_manager.health_check()`, aggregates the overall status, and
returns the response dict. -/
def health_endpoint (m : GraphManager) : HealthResponse :=
  let assistant_health := m.health_check
  { status := overall_status assistant_health
    assistants := assistant_health.map Prod.fst
    assistant_health := assistant_health
    version := "1.0"
    backend_type := "langgraph" }

/-- The errors the `invoke_assistant` handler can raise: `HTTPException`
with status 404 or 500 (these are the only `raise` sites in the handler). -/
inductive HTTPError where
  | notFound (detail : String)
  | internal (detail : String)
deriving Repr, DecidableEq

/-- The `AssistantResponse` model of `app.py`: the handler always fills
`metadata` with the single pair `{"assistant_id": assistant_id}`, kept here
as the field `metadata_assistant_id`. -/
structure AssistantResponse where
  response : String
  thread_id : Option String
  metadata_assistant_id : String
deriving Repr, DecidableEq

/-- The dispatch decision of `invoke_assistant`:
`metadata = assistant_manager.get_assistant_metadata(assistant_id) or {}`,
then `if request.thread_id and metadata.get("supports_persistence")` the
worker is called with a `RunnableConfig` carrying `request.thread_id`,
otherwise with no config.  Returns the `thread_id` of that config, `none`
when no config is passed. -/
def invoke_config (m : GraphManager) (assistant_id : String)
    (thread_id : Option String) : Option String :=
  let supports :=
    match m.get_assistant_metadata assistant_id with
    | some md => md.supports_persistence
    | none => false
  if pyTruthy thread_id && supports then thread_id else none

/-- The `invoke_assistant` handler of `app.py` (route
`POST /assistants/{assistant_id}/invoke`), after authentication:
look up the assistant (404 when absent), build the input from
`request.message`, dispatch per `invoke_config`, normalize the result to
`AssistantResponse`, and wrap any exception from the `try` block as a 500
`"Assistant invocation failed: " + str(e)`.  The handler never reads
`request.config`, which is therefore passed but unused here. -/
def invoke_assistant (m : GraphManager) (assistant_id : String)
    (message : String) (thread_id : Option String)
    (config : Option (List (String × String))) :
    Except HTTPError AssistantResponse :=
  match m.get_assistant assistant_id with
  | none => .error (.notFound ("Assistant " ++ assistant_id ++ " not found"))
  | some assistant =>
      match assistant.ainvoke message (invoke_config m assistant_id thread_id) with
      | .ok result =>
          .ok { response := result.response.getD ""
                thread_id := thread_id
                metadata_assistant_id := assistant_id }
      | .error e =>
          .error (.internal ("Assistant invocation failed: " ++ e.msg))

/-- The six graph constructors `_initialize_assistants` calls, each either
returning a compiled graph or raising. -/
structure GraphFactories where
  create_chatbot_graph : Except PyExc CompiledGraph
  create_chatbot_graph_with_checkpointing : Except PyExc CompiledGraph
  create_code_assistant_graph : Except PyExc CompiledGraph
  create_creative_writer_graph : Except PyExc CompiledGraph
  create_data_analyst_graph : Except PyExc CompiledGraph
  create_research_assistant_graph : Except PyExc CompiledGraph

/-- The metadata literal for `"chatbot"` in `_initialize_assistants`. -/
def chatbot_metadata : Meta :=
  { name := "General Chatbot"
    description := "General-purpose conversational AI assistant"
    type := "chat"
    supports_streaming := true
    supports_persistence := false
    has_tools := none }

/-- The metadata literal for `"chatbot-persistent"`. -/
def chatbot_persistent_metadata : Meta :=
  { name := "Persistent Chatbot"
    description := "General-purpose conversational AI with memory persistence"
    type := "chat"
    supports_streaming := true
    supports_persistence := true
    has_tools := none }

/-- The metadata literal for `"code-assistant"`. -/
def code_assistant_metadata : Meta :=
  { name := "Code Assistant"
    description := "Specialized coding and development assistant"
    type := "chat"
    supports_streaming := true
    supports_persistence := false
    has_tools := none }

/-- The metadata literal for `"creative-writer"`. -/
def creative_writer_metadata : Meta :=
  { name := "Creative Writer"
    description := "Creative writing and storytelling assistant"
    type := "chat"
    supports_streaming := true
    supports_persistence := false
    has_tools := none }

/-- The metadata literal for `"data-analyst"`. -/
def data_analyst_metadata : Meta :=
  { name := "Data Analyst"
    description := "Data analysis and research with search tools"
    type := "chat"
    supports_streaming := true
    supports_persistence := false
    has_tools := some true }

/-- The metadata literal for `"research-assistant"`. -/
def research_assistant_metadata : Meta :=
  { name := "Research Assistant"
    description := "Research assistant with web search capabilities"
    type := "chat"
    supports_streaming := true
    supports_persistence := false
    has_tools := some true }

/-- The assistant ids inserted by `_initialize_assistants`, in insertion
order. -/
def build_ids : List String :=
  ["chatbot", "chatbot-persistent", "code-assistant", "creative-writer",
   "data-analyst", "research-assistant"]

/-- `GraphManager.__init__` / `_initialize_assistants`: creates each graph
in order and inserts it with its metadata; the `except` clause logs and
re-`raise`s, so the first constructor exception propagates out of
`GraphManager()` and no manager object is produced. -/
def mkGraphManager (f : GraphFactories) : Except PyExc GraphManager := do
  let chatbot ← f.create_chatbot_graph
  let chatbot_persistent ← f.create_chatbot_graph_with_checkpointing
  let code_assistant ← f.create_code_assistant_graph
  let creative_writer ← f.create_creative_writer_graph
  let data_analyst ← f.create_data_analyst_graph
  let research_assistant ← f.create_research_assistant_graph
  .ok
    { assistants :=
        [("chatbot", chatbot),
         ("chatbot-persistent", chatbot_persistent),
         ("code-assistant", code_assistant),
         ("creative-writer", creative_writer),
         ("data-analyst", data_analyst),
         ("research-assistant", research_assistant)]
      assistant_metadata :=
        [("chatbot", chatbot_metadata),
         ("chatbot-persistent", chatbot_persistent_metadata),
         ("code-assistant", code_assistant_metadata),
         ("creative-writer", creative_writer_metadata),
         ("data-analyst", data_analyst_metadata),
         ("research-assistant", research_assistant_metadata)] }

/-!
Reference semantics of `GraphManager.list_assistants`.

`list_assistants` returns `self.assistant_metadata.copy()`.  A Python dict
holds references to its value objects, and `.copy()` is a shallow copy: a
new outer dict object whose entries point at the same metadata dict objects.
To reason about mutation through the returned value we model the heap of
dict objects explicitly: inner metadata dicts and outer id-to-metadata dicts
are addressed by natural numbers, and `.copy()` allocates a fresh outer
address sharing the inner addresses.
-/

/-- A heap of Python dict objects: `inner` maps addresses to metadata dicts,
`outer` maps addresses to id-to-metadata-address dicts, `next` is the next
fresh address. -/
structure PyHeap where
  inner : List (Nat × Meta)
  outer : List (Nat × List (String × Nat))
  next : Nat
deriving Repr, DecidableEq

/-- Every allocated outer dict lives below the allocation frontier. -/
def PyHeap.wf (h : PyHeap) : Prop :=
  ∀ p ∈ h.outer, p.1 < h.next

/-- The entries of the outer dict at address `d` (a dangling address reads
as the empty dict; well-formed scenarios never dangle). -/
def outer_entries (h : PyHeap) (d : Nat) : List (String × Nat) :=
  (dict_get h.outer d).getD []

/-- The content a caller observes in the outer dict at `d`: each key with
the metadata dict its entry points at. -/
def dict_content (h : PyHeap) (d : Nat) : List (String × Option Meta) :=
  (outer_entries h d).map (fun p => (p.1, dict_get h.inner p.2))

/-- `GraphManager.list_assistants` under reference semantics:
`self.assistant_metadata.copy()` allocates a fresh outer dict with the same
entries (the same inner addresses) and returns its address. -/
def list_assistants_heap (h : PyHeap) (registry : Nat) : PyHeap × Nat :=
  ({ h with outer := h.outer ++ [(h.next, outer_entries h registry)]
            next := h.next + 1 },
   h.next)

/-- A caller mutating the top level of an outer dict it holds:
`d[k] = a` where `a` is the address of some metadata dict. -/
def outer_set (h : PyHeap) (d : Nat) (k : String) (a : Nat) : PyHeap :=
  { h with outer := dict_set h.outer d (dict_set (outer_entries h d) k a) }

/-- A caller deleting a top-level key of an outer dict it holds: `del d[k]`. -/
def outer_del (h : PyHeap) (d : Nat) (k : String) : PyHeap :=
  { h with outer := dict_set h.outer d (dict_del (outer_entries h d) k) }

/-- A caller mutating a metadata dict through a reference it holds:
`md["name"] = s`. -/
def inner_set_name (h : PyHeap) (a : Nat) (s : String) : PyHeap :=
  { h with inner :=
      match dict_get h.inner a with
      | some md => dict_set h.inner a { md with name := s }
      | none => h.inner }

/-!
Concrete graphs and managers used to evaluate the definitions on specific
inputs (mock workers in the spirit of the repository's test echo agent).
-/

/-- A graph whose probe and invocation always succeed (empty result dict). -/
def dummy_graph : CompiledGraph :=
  { nodesAttr := .ok, ainvoke := fun _ _ => .ok { response := none } }

/-- A mock echo worker: replies `"Echo: " + message` on every input. -/
def echo_graph : CompiledGraph :=
  { nodesAttr := .ok
    ainvoke := fun message _ => .ok { response := some ("Echo: " ++ message) } }

/-- A mock worker that reports the dispatch mode it was invoked with:
`"no-config"` when called without a `RunnableConfig`, `"thread=" + t` when
called with a config carrying thread id `t`. -/
def probe_config_graph : CompiledGraph :=
  { nodesAttr := .ok
    ainvoke := fun _ cfg =>
      .ok { response := some (match cfg with
                              | none => "no-config"
                              | some t => "thread=" ++ t) } }

/-- A worker whose invocation raises. -/
def failing_graph : CompiledGraph :=
  { nodesAttr := .ok
    ainvoke := fun _ _ => .error { isAttrError := false, msg := "boom" } }

/-- A graph whose `nodes` access raises a non-`AttributeError` exception. -/
def bad_graph : CompiledGraph :=
  { nodesAttr := .raises { isAttrError := false, msg := "graph deleted" }
    ainvoke := fun _ _ => .ok { response := none } }

/-- A graph without a `nodes` attribute: the access raises an
`AttributeError`, which `hasattr` converts into `False`. -/
def attr_missing_graph : CompiledGraph :=
  { nodesAttr :=
      .raises { isAttrError := true, msg := "object has no attribute nodes" }
    ainvoke := fun _ _ => .ok { response := none } }

/-- A manager with the single non-persistent assistant `"chatbot"` bound to
the echo worker. -/
def echo_manager : GraphManager :=
  { assistants := [("chatbot", echo_graph)]
    assistant_metadata := [("chatbot", chatbot_metadata)] }

/-- A manager with the single persistent assistant `"chatbot-persistent"`
bound to the dispatch-mode-reporting worker. -/
def persistent_probe_manager : GraphManager :=
  { assistants := [("chatbot-persistent", probe_config_graph)]
    assistant_metadata := [("chatbot-persistent", chatbot_persistent_metadata)] }

/-- A manager whose single assistant's invocation raises. -/
def fail_manager : GraphManager :=
  { assistants := [("chatbot", failing_graph)]
    assistant_metadata := [("chatbot", chatbot_metadata)] }

/-- Three workers of which the middle one's structural probe raises. -/
def three_manager : GraphManager :=
  { assistants :=
      [("assistant-a", dummy_graph),
       ("assistant-b", bad_graph),
       ("assistant-c", dummy_graph)]
    assistant_metadata :=
      [("assistant-a", chatbot_metadata),
       ("assistant-b", chatbot_metadata),
       ("assistant-c", chatbot_metadata)] }

/-- Factories that all succeed. -/
def ok_factories : GraphFactories :=
  { create_chatbot_graph := .ok dummy_graph
    create_chatbot_graph_with_checkpointing := .ok dummy_graph
    create_code_assistant_graph := .ok dummy_graph
    create_creative_writer_graph := .ok dummy_graph
    create_data_analyst_graph := .ok dummy_graph
    create_research_assistant_graph := .ok dummy_graph }

/-- The manager `mkGraphManager ok_factories` builds. -/
def built_manager : GraphManager :=
  { assistants :=
      [("chatbot", dummy_graph),
       ("chatbot-persistent", dummy_graph),
       ("code-assistant", dummy_graph),
       ("creative-writer", dummy_graph),
       ("data-analyst", dummy_graph),
       ("research-assistant", dummy_graph)]
    assistant_metadata :=
      [("chatbot", chatbot_metadata),
       ("chatbot-persistent", chatbot_persistent_metadata),
       ("code-assistant", code_assistant_metadata),
       ("creative-writer", creative_writer_metadata),
       ("data-analyst", data_analyst_metadata),
       ("research-assistant", research_assistant_metadata)] }

/-- Factories of which the third (the code assistant's) raises. -/
def broken_factories : GraphFactories :=
  { create_chatbot_graph := .ok dummy_graph
    create_chatbot_graph_with_checkpointing := .ok dummy_graph
    create_code_assistant_graph :=
      .error { isAttrError := false, msg := "OPENAI API key missing" }
    create_creative_writer_graph := .ok dummy_graph
    create_data_analyst_graph := .ok dummy_graph
    create_research_assistant_graph := .ok dummy_graph }

/-- A concrete heap holding a registry dict with one assistant: the
metadata dict of `"chatbot"` lives at inner address 0, the registry's
`assistant_metadata` outer dict at address 100. -/
def example_heap : PyHeap :=
  { inner := [(0, chatbot_metadata)]
    outer := [(100, [("chatbot", 0)])]
    next := 101 }

/-- The heap after one `list_assistants()` call on `example_heap`. -/
def heap_after_call1 : PyHeap := (list_assistants_heap example_heap 100).1

/-- The address of the dict that call returned (the fresh address 101). -/
def returned_dict1 : Nat := (list_assistants_heap example_heap 100).2

/-- The caller mutates a nested metadata dict through the returned value:
`returned["chatbot"]["name"] = "mutated"` navigates the returned dict to
the shared inner address and writes through it. -/
def heap_after_nested_mutation : PyHeap :=
  inner_set_name heap_after_call1
    ((dict_get (outer_entries heap_after_call1 returned_dict1) "chatbot").getD 0)
    "mutated"

/-!
Theorems.
-/

/-- `dict.get` finds a value exactly for the keys of the dict. -/
theorem dict_get_isSome_iff {κ α : Type} [DecidableEq κ] (d : List (κ × α)) (k : κ) :
    (dict_get d k).isSome ↔ k ∈ d.map Prod.fst := by
  induction d with
  | nil => simp [dict_get]
  | cons p rest ih =>
      obtain ⟨k', v⟩ := p
      by_cases h : k' = k
      · subst h; simp [dict_get]
      · simp [dict_get, h, ih, Ne.symm h]

/-- C8: for every invocation request whose `assistantId` is not in the
registry, `invoke` yields `AssistantNotFound` (HTTP 404), regardless of the
message content, `threadId`, or configuration overrides supplied. -/
theorem invoke_unknown_assistant_not_found (m : GraphManager)
    (assistant_id message : String) (thread_id : Option String)
    (config : Option (List (String × String)))
    (h : m.get_assistant assistant_id = none) :
    invoke_assistant m assistant_id message thread_id config =
      .error (.notFound ("Assistant " ++ assistant_id ++ " not found")) := by
  simp [invoke_assistant, h]

/-- Witness for C8: the echo manager knows no assistant `"ghost"`, and
invoking it — with a message, a thread id and config overrides supplied —
yields the 404 error. -/
theorem invoke_unknown_assistant_not_found_witness :
    echo_manager.get_assistant "ghost" = none ∧
    invoke_assistant echo_manager "ghost" "hello" (some "t1")
        (some [("temperature", "0.7")]) =
      .error (.notFound "Assistant ghost not found") :=
  ⟨rfl,
   invoke_unknown_assistant_not_found echo_manager "ghost" "hello" (some "t1")
     (some [("temperature", "0.7")]) rfl⟩

/-- C6: for every invocation in which the worker call raises, the fault is
caught at the router boundary and converted into the structured 500 result
`"Assistant invocation failed: " + str(e)`; since `invoke_assistant` is a
total function into `Except HTTPError AssistantResponse`, no worker
exception escapes as an unstructured fault. -/
theorem invoke_wraps_worker_fault (m : GraphManager)
    (assistant_id message : String) (thread_id : Option String)
    (config : Option (List (String × String)))
    (g : CompiledGraph) (e : PyExc)
    (hg : m.get_assistant assistant_id = some g)
    (he : g.ainvoke message (invoke_config m assistant_id thread_id) = .error e) :
    invoke_assistant m assistant_id message thread_id config =
      .error (.internal ("Assistant invocation failed: " ++ e.msg)) := by
  simp [invoke_assistant, hg, he]

/-- Witness for C6: the raising worker's fault surfaces as the structured
500 message. -/
theorem invoke_wraps_worker_fault_witness :
    fail_manager.get_assistant "chatbot" = some failing_graph ∧
    failing_graph.ainvoke "hi" (invoke_config fail_manager "chatbot" none) =
      .error { isAttrError := false, msg := "boom" } ∧
    invoke_assistant fail_manager "chatbot" "hi" none none =
      .error (.internal "Assistant invocation failed: boom") :=
  ⟨rfl, rfl,
   invoke_wraps_worker_fault fail_manager "chatbot" "hi" none none
     failing_graph { isAttrError := false, msg := "boom" } rfl rfl⟩

/-- C1 (code bug): `invoke_assistant` performs no emptiness validation on
`request.message` — an empty message for the registered assistant
`"chatbot"` is dispatched to the worker and answered with a 200 success
response, never with the 400 `InvalidRequest` the route's own OpenAPI
`responses` declaration ("Message content cannot be empty") documents. -/
theorem invoke_empty_message_dispatches :
    invoke_assistant echo_manager "chatbot" "" none none =
      .ok { response := "Echo: "
            thread_id := none
            metadata_assistant_id := "chatbot" } := rfl

/-- C5: a worker whose `nodes` access raises an `AttributeError` (in
particular, a graph without that attribute) is reported healthy with error
`None`; the unhealthy branch is reached only when accessing `nodes` raises
a non-`AttributeError` exception, whose message is then recorded. -/
theorem probe_unhealthy_only_non_attribute_error (g : CompiledGraph) :
    ((∃ e, g.nodesAttr = .raises e ∧ e.isAttrError = true) →
        health_record g = { status := "healthy", error := none }) ∧
    ((health_record g).status = "unhealthy" →
        ∃ e, g.nodesAttr = .raises e ∧ e.isAttrError = false ∧
          health_record g = { status := "unhealthy", error := some e.msg }) := by
  constructor
  · rintro ⟨e, he, hattr⟩
    simp [health_record, probe_graph, he, hattr]
  · intro hst
    match hg : g.nodesAttr with
    | .ok => simp [health_record, probe_graph, hg] at hst
    | .raises e =>
        by_cases hattr : e.isAttrError = true
        · simp [health_record, probe_graph, hg, hattr] at hst
        · refine ⟨e, rfl, by simpa using hattr, ?_⟩
          simp [health_record, probe_graph, hg, Bool.eq_false_iff.mpr hattr]

/-- Witness for C5: a graph whose `nodes` access raises an
`AttributeError` is reported healthy. -/
theorem probe_unhealthy_only_non_attribute_error_witness :
    health_record attr_missing_graph = { status := "healthy", error := none } :=
  (probe_unhealthy_only_non_attribute_error attr_missing_graph).1
    ⟨{ isAttrError := true, msg := "object has no attribute nodes" }, rfl, rfl⟩

/-- C2 counterexample: a present but empty `threadId` (`thread_id = ""`) on
a persistence-capable assistant is falsy in Python, so the dispatch is
stateless — the worker observes no `RunnableConfig` — although the claim's
"threadId present and supportsPersistence true" condition holds. -/
theorem invoke_present_empty_thread_id_stateless :
    ((some "" : Option String).isSome = true ∧
      persistent_probe_manager.get_assistant_metadata "chatbot-persistent" =
        some chatbot_persistent_metadata ∧
      chatbot_persistent_metadata.supports_persistence = true) ∧
    invoke_config persistent_probe_manager "chatbot-persistent" (some "") = none ∧
    invoke_assistant persistent_probe_manager "chatbot-persistent" "hi" (some "")
        none =
      .ok { response := "no-config"
            thread_id := some ""
            metadata_assistant_id := "chatbot-persistent" } :=
  ⟨⟨rfl, rfl, rfl⟩, rfl, rfl⟩

/-- C2 (amended): for a registered assistant, dispatch is thread-scoped
(the thread identifier is attached to the worker call) iff the request's
`threadId` is present **and non-empty** and the metadata's
`supports_persistence` flag is true; in every other case the worker is
called without a config, and on success the `threadId` is echoed back
unchanged with metadata carrying the assistant id. -/
theorem invoke_dispatch_mode_amended (m : GraphManager)
    (assistant_id message : String) (thread_id : Option String)
    (config : Option (List (String × String)))
    (g : CompiledGraph) (md : Meta)
    (hg : m.get_assistant assistant_id = some g)
    (hmd : m.get_assistant_metadata assistant_id = some md) :
    (invoke_config m assistant_id thread_id =
        if pyTruthy thread_id && md.supports_persistence then thread_id
        else none) ∧
    (invoke_config m assistant_id thread_id ≠ none ↔
        (pyTruthy thread_id = true ∧ md.supports_persistence = true)) ∧
    (∀ r, g.ainvoke message (invoke_config m assistant_id thread_id) = .ok r →
        invoke_assistant m assistant_id message thread_id config =
          .ok { response := r.response.getD ""
                thread_id := thread_id
                metadata_assistant_id := assistant_id }) := by
  have hcfg : invoke_config m assistant_id thread_id =
      if pyTruthy thread_id && md.supports_persistence then thread_id
      else none := by
    simp [invoke_config, hmd]
  refine ⟨hcfg, ?_, ?_⟩
  · rw [hcfg]
    by_cases ht : pyTruthy thread_id = true
    · by_cases hp : md.supports_persistence = true
      · have hnn : thread_id ≠ none := by
          cases thread_id with
          | none => simp [pyTruthy] at ht
          | some s => simp
        simp [ht, hp, hnn]
      · simp [ht, Bool.eq_false_iff.mpr hp, hp]
    · simp [Bool.eq_false_iff.mpr ht, ht]
  · intro r hr
    simp [invoke_assistant, hg, hr]

/-- Witness for C2 (amended): on the persistence-capable manager, a
non-empty thread id `"t1"` reaches the worker as the config's thread id,
and the response echoes the thread id with the assistant id as metadata. -/
theorem invoke_dispatch_mode_amended_witness :
    persistent_probe_manager.get_assistant "chatbot-persistent" =
      some probe_config_graph ∧
    persistent_probe_manager.get_assistant_metadata "chatbot-persistent" =
      some chatbot_persistent_metadata ∧
    probe_config_graph.ainvoke "hi"
        (invoke_config persistent_probe_manager "chatbot-persistent" (some "t1")) =
      .ok { response := some "thread=t1" } ∧
    invoke_assistant persistent_probe_manager "chatbot-persistent" "hi"
        (some "t1") none =
      .ok { response := "thread=t1"
            thread_id := some "t1"
            metadata_assistant_id := "chatbot-persistent" } :=
  ⟨rfl, rfl, rfl,
   (invoke_dispatch_mode_amended persistent_probe_manager "chatbot-persistent"
       "hi" (some "t1") none probe_config_graph chatbot_persistent_metadata
       rfl rfl).2.2
     { response := some "thread=t1" } rfl⟩

/-- C10: the aggregated status of the `/health` endpoint is `"healthy"` iff
every worker's health record reports `"healthy"`, and is `"degraded"` in
every other case. -/
theorem health_endpoint_status_iff (m : GraphManager) :
    ((health_endpoint m).status = "healthy" ↔
        ∀ p ∈ m.health_check, p.2.status = "healthy") ∧
    ((health_endpoint m).status = "degraded" ↔
        ¬ ∀ p ∈ m.health_check, p.2.status = "healthy") := by
  have hvals : (health_endpoint m).status =
      if m.health_check.all (fun p => p.2.status == "healthy") then "healthy"
      else "degraded" := rfl
  have hiff : (m.health_check.all (fun p => p.2.status == "healthy") = true) ↔
      ∀ p ∈ m.health_check, p.2.status = "healthy" := by
    simp [List.all_eq_true]
  by_cases hall : m.health_check.all (fun p => p.2.status == "healthy") = true
  · rw [hvals, if_pos hall]
    constructor
    · simpa using hiff.mp hall
    · constructor
      · intro h; exact absurd h (by decide)
      · intro h; exact absurd (hiff.mp hall) h
  · rw [hvals, if_neg hall]
    constructor
    · constructor
      · intro h; exact absurd h (by decide)
      · intro h; exact absurd (hiff.mpr h) hall
    · constructor
      · intro _ h; exact hall (hiff.mpr h)
      · intro _; rfl

/-- Witness for C10: the all-healthy echo manager aggregates to
`"healthy"`, and the three-worker manager with one broken probe does not
have all workers healthy, so it aggregates to `"degraded"`. -/
theorem health_endpoint_status_iff_witness :
    (health_endpoint echo_manager).status = "healthy" ∧
    (health_endpoint three_manager).status = "degraded" :=
  ⟨(health_endpoint_status_iff echo_manager).1.mpr (by decide),
   (health_endpoint_status_iff three_manager).2.mpr (by decide)⟩

/-- C7: if any single worker's constructor throws during the registry
build, the build fails — an exception propagates out of `GraphManager()` —
and no (partially built) manager object is ever produced to serve traffic. -/
theorem mkGraphManager_fails_on_factory_fault (f : GraphFactories) (e : PyExc)
    (h : f.create_chatbot_graph = .error e ∨
         f.create_chatbot_graph_with_checkpointing = .error e ∨
         f.create_code_assistant_graph = .error e ∨
         f.create_creative_writer_graph = .error e ∨
         f.create_data_analyst_graph = .error e ∨
         f.create_research_assistant_graph = .error e) :
    (∃ efirst, mkGraphManager f = .error efirst) ∧
    ∀ mgr, mkGraphManager f ≠ .ok mgr := by
  obtain ⟨f1, f2, f3, f4, f5, f6⟩ := f
  rcases f1 with e1 | g1 <;> rcases f2 with e2 | g2 <;> rcases f3 with e3 | g3 <;>
      rcases f4 with e4 | g4 <;> rcases f5 with e5 | g5 <;> rcases f6 with e6 | g6 <;>
      simp_all [mkGraphManager, Bind.bind, Except.bind]

/-- Witness for C7: with the code assistant's constructor raising, the
build yields an error and can equal no `.ok` manager. -/
theorem mkGraphManager_fails_on_factory_fault_witness :
    broken_factories.create_code_assistant_graph =
      .error { isAttrError := false, msg := "OPENAI API key missing" } ∧
    (∃ efirst, mkGraphManager broken_factories = .error efirst) ∧
    ∀ mgr, mkGraphManager broken_factories ≠ .ok mgr :=
  ⟨rfl,
   mkGraphManager_fails_on_factory_fault broken_factories
     { isAttrError := false, msg := "OPENAI API key missing" }
     (Or.inr (Or.inr (Or.inl rfl)))⟩

/-- C9: in a successfully built registry, both mappings carry exactly the
ids of the build step, so `get_assistant` and `get_assistant_metadata`
return non-absent values iff the id was part of the build, the two key sets
are identical, and an unknown id yields `none` (the lookups are total
functions, never exceptions). -/
theorem built_registry_lookup_consistent (f : GraphFactories)
    (mgr : GraphManager) (h : mkGraphManager f = .ok mgr) :
    mgr.assistants.map Prod.fst = build_ids ∧
    mgr.assistant_metadata.map Prod.fst = build_ids ∧
    ∀ assistant_id : String,
      ((mgr.get_assistant assistant_id).isSome ↔ assistant_id ∈ build_ids) ∧
      ((mgr.get_assistant_metadata assistant_id).isSome ↔
        assistant_id ∈ build_ids) := by
  obtain ⟨f1, f2, f3, f4, f5, f6⟩ := f
  rcases f1 with e1 | g1 <;> rcases f2 with e2 | g2 <;> rcases f3 with e3 | g3 <;>
      rcases f4 with e4 | g4 <;> rcases f5 with e5 | g5 <;> rcases f6 with e6 | g6 <;>
      simp [mkGraphManager, Bind.bind, Except.bind] at h
  subst h
  refine ⟨rfl, rfl, fun assistant_id => ⟨?_, ?_⟩⟩
  · simpa [GraphManager.get_assistant, build_ids] using
      dict_get_isSome_iff
        [("chatbot", g1), ("chatbot-persistent", g2), ("code-assistant", g3),
         ("creative-writer", g4), ("data-analyst", g5),
         ("research-assistant", g6)] assistant_id
  · simpa [GraphManager.get_assistant_metadata, build_ids] using
      dict_get_isSome_iff
        [("chatbot", chatbot_metadata),
         ("chatbot-persistent", chatbot_persistent_metadata),
         ("code-assistant", code_assistant_metadata),
         ("creative-writer", creative_writer_metadata),
         ("data-analyst", data_analyst_metadata),
         ("research-assistant", research_assistant_metadata)] assistant_id

/-- Witness for C9: the all-succeeding factories build `built_manager`;
there the registered id `"chatbot"` is found and the unknown id `"ghost"`
yields absence. -/
theorem built_registry_lookup_consistent_witness :
    mkGraphManager ok_factories = .ok built_manager ∧
    (built_manager.get_assistant "chatbot").isSome = true ∧
    (built_manager.get_assistant "ghost").isSome = false ∧
    (built_manager.get_assistant_metadata "ghost").isSome = false :=
  ⟨rfl,
   ((built_registry_lookup_consistent ok_factories built_manager rfl).2.2
       "chatbot").1.mpr (by decide),
   by
     have h := ((built_registry_lookup_consistent ok_factories built_manager
         rfl).2.2 "ghost").1
     exact Bool.eq_false_iff.mpr fun hs => absurd (h.mp hs) (by decide),
   by
     have h := ((built_registry_lookup_consistent ok_factories built_manager
         rfl).2.2 "ghost").2
     exact Bool.eq_false_iff.mpr fun hs => absurd (h.mp hs) (by decide)⟩

/-- C4: if exactly one worker's structural probe throws, `health_check`
maps that worker to an unhealthy record carrying the exception's message
and every other worker to a healthy record (the iteration is never
aborted), and the aggregated status over the result is `"degraded"`. -/
theorem health_check_isolates_faults (m : GraphManager) (bad : String)
    (e : PyExc)
    (hbad : ∃ g, (bad, g) ∈ m.assistants)
    (hprobe : ∀ p ∈ m.assistants,
        (p.1 = bad → probe_graph p.2 = .error e) ∧
        (p.1 ≠ bad → probe_graph p.2 = .ok ())) :
    m.health_check =
      m.assistants.map (fun p =>
        (p.1,
         if p.1 = bad then
           ({ status := "unhealthy", error := some e.msg } : HealthRecord)
         else { status := "healthy", error := none })) ∧
    overall_status m.health_check = "degraded" := by
  have hmap : m.health_check =
      m.assistants.map (fun p =>
        (p.1,
         if p.1 = bad then
           ({ status := "unhealthy", error := some e.msg } : HealthRecord)
         else { status := "healthy", error := none })) := by
    unfold GraphManager.health_check
    refine List.map_congr_left fun p hp => ?_
    rcases hprobe p hp with ⟨h1, h2⟩
    by_cases hb : p.1 = bad
    · simp [hb, health_record, h1 hb]
    · simp [hb, health_record, h2 hb]
  refine ⟨hmap, ?_⟩
  obtain ⟨g, hg⟩ := hbad
  have hrec : (bad, ({ status := "unhealthy", error := some e.msg } :
      HealthRecord)) ∈ m.health_check := by
    rw [hmap]
    exact List.mem_map.mpr ⟨(bad, g), hg, by simp⟩
  have hfalse : m.health_check.all (fun p => p.2.status == "healthy") ≠ true := by
    intro hall
    have h2 := List.all_eq_true.mp hall _ hrec
    simp at h2
  unfold overall_status
  rw [if_neg hfalse]

/-- Witness for C4: in the three-worker manager whose middle probe raises,
the returned mapping keeps healthy records for the two sound workers,
marks the broken one with its message, and the overall status is
`"degraded"`. -/
theorem health_check_isolates_faults_witness :
    three_manager.health_check =
      [("assistant-a", { status := "healthy", error := none }),
       ("assistant-b", { status := "unhealthy", error := some "graph deleted" }),
       ("assistant-c", { status := "healthy", error := none })] ∧
    overall_status three_manager.health_check = "degraded" := by
  have h := health_check_isolates_faults three_manager "assistant-b"
      { isAttrError := false, msg := "graph deleted" }
      ⟨bad_graph, by simp [three_manager]⟩
      (by
        intro p hp
        simp [three_manager] at hp
        rcases hp with rfl | rfl | rfl
        · exact ⟨fun hb => absurd hb (by decide), fun _ => rfl⟩
        · exact ⟨fun _ => rfl, fun hb => absurd rfl hb⟩
        · exact ⟨fun hb => absurd hb (by decide), fun _ => rfl⟩)
  refine ⟨?_, h.2⟩
  rw [h.1]
  rfl

/-- Appending a fresh binding does not change lookups of other keys. -/
theorem dict_get_append_ne {κ α : Type} [DecidableEq κ] (d : List (κ × α))
    (k n : κ) (v : α) (h : n ≠ k) :
    dict_get (d ++ [(n, v)]) k = dict_get d k := by
  induction d with
  | nil => simp [dict_get, h]
  | cons p rest ih =>
      obtain ⟨k', v'⟩ := p
      by_cases hk : k' = k <;> simp [dict_get, hk, ih]

/-- Appending a binding for a key absent from the dict makes it found. -/
theorem dict_get_append_fresh {κ α : Type} [DecidableEq κ] (d : List (κ × α))
    (n : κ) (v : α) (h : n ∉ d.map Prod.fst) :
    dict_get (d ++ [(n, v)]) n = some v := by
  induction d with
  | nil => simp [dict_get]
  | cons p rest ih =>
      obtain ⟨k', v'⟩ := p
      simp only [List.map_cons, List.mem_cons, not_or] at h
      have hne : k' ≠ n := fun hk => h.1 hk.symm
      simp [dict_get, hne, ih h.2]

/-- Writing one key of a dict does not change lookups of other keys. -/
theorem dict_get_set_ne {κ α : Type} [DecidableEq κ] (d : List (κ × α))
    (c k : κ) (v : α) (h : c ≠ k) :
    dict_get (dict_set d c v) k = dict_get d k := by
  induction d with
  | nil => simp [dict_set, dict_get, h]
  | cons p rest ih =>
      obtain ⟨k', v'⟩ := p
      by_cases hc : k' = c
      · subst hc
        simp [dict_set, dict_get, h]
      · by_cases hk : k' = k
        · subst hk
          simp [dict_set, dict_get, hc]
        · simp [dict_set, dict_get, hc, hk, ih]

/-- Every entry of a written dict is an original entry or carries the
written key. -/
theorem mem_dict_set {κ α : Type} [DecidableEq κ] (d : List (κ × α)) (c : κ)
    (v : α) : ∀ p ∈ dict_set d c v, p ∈ d ∨ p.1 = c := by
  induction d with
  | nil =>
      intro p hp
      simp [dict_set] at hp
      subst hp
      right; rfl
  | cons q rest ih =>
      obtain ⟨k', v'⟩ := q
      intro p hp
      by_cases hc : k' = c
      · subst hc
        simp [dict_set] at hp
        rcases hp with rfl | hp
        · right; rfl
        · left; simp [hp]
      · simp [dict_set, hc] at hp
        rcases hp with rfl | hp
        · left; simp
        · rcases ih p hp with h | h
          · left; simp [h]
          · right; exact h

/-- Allocation preserves heap well-formedness. -/
theorem wf_list_assistants_heap (h : PyHeap) (registry : Nat) (hwf : h.wf) :
    ((list_assistants_heap h registry).1).wf := by
  intro p hp
  simp only [list_assistants_heap, List.mem_append, List.mem_singleton] at hp
  rcases hp with hp | hp
  · exact Nat.lt_succ_of_lt (hwf p hp)
  · subst hp; exact Nat.lt_succ_self _

/-- Writing the entries of an existing outer dict preserves heap
well-formedness. -/
theorem wf_outer_write (h : PyHeap) (d : Nat) (es : List (String × Nat))
    (hwf : h.wf) (hd : d < h.next) :
    PyHeap.wf { h with outer := dict_set h.outer d es } := by
  intro p hp
  rcases mem_dict_set h.outer d es p hp with hmem | hkey
  · exact hwf p hmem
  · simpa [hkey] using hd

/-- One `list_assistants()` call on a well-formed heap: the returned fresh
dict shows the same content as the registry dict, and the registry dict's
entries are untouched. -/
theorem list_assistants_heap_content (h : PyHeap) (registry : Nat)
    (hwf : h.wf) (hreg : registry < h.next) :
    dict_content (list_assistants_heap h registry).1
        (list_assistants_heap h registry).2 = dict_content h registry ∧
    outer_entries (list_assistants_heap h registry).1 registry =
      outer_entries h registry := by
  have hfresh : h.next ∉ h.outer.map Prod.fst := by
    intro hmem
    obtain ⟨p, hp, hp1⟩ := List.mem_map.mp hmem
    have := hwf p hp
    omega
  have hne : h.next ≠ registry := by omega
  constructor
  · simp [list_assistants_heap, dict_content, outer_entries,
          dict_get_append_fresh _ _ _ hfresh]
  · simp [list_assistants_heap, outer_entries,
          dict_get_append_ne _ _ _ _ hne]

/-- C3 counterexample: `list_assistants` returns only a shallow copy, so a
caller mutating a nested metadata dict through the returned mapping
(`returned["chatbot"]["name"] = "mutated"`) changes the registry's own
content and the content a subsequent `list_assistants()` call returns. -/
theorem list_assistants_shallow_copy_cex :
    dict_content example_heap 100 = [("chatbot", some chatbot_metadata)] ∧
    dict_content heap_after_nested_mutation 100 ≠ dict_content example_heap 100 ∧
    dict_content (list_assistants_heap heap_after_nested_mutation 100).1
        (list_assistants_heap heap_after_nested_mutation 100).2 ≠
      dict_content example_heap 100 := by
  decide

/-- C3 (amended): `list_assistants` returns a fresh top-level mapping: two
consecutive calls return equal content, and top-level mutation of the
returned mapping — assigning or deleting an entry — changes neither the
registry dict's entries and content nor what a subsequent call returns;
only the mapping itself is copied, not the metadata dicts it points at. -/
theorem list_assistants_defensive_top_level (h : PyHeap) (registry : Nat)
    (hwf : h.wf) (hreg : registry < h.next) (k : String) (a : Nat) :
    dict_content (list_assistants_heap h registry).1
        (list_assistants_heap h registry).2 =
      dict_content
        (list_assistants_heap (list_assistants_heap h registry).1 registry).1
        (list_assistants_heap (list_assistants_heap h registry).1 registry).2 ∧
    (outer_entries (outer_set (list_assistants_heap h registry).1
        (list_assistants_heap h registry).2 k a) registry =
      outer_entries h registry ∧
     dict_content (outer_set (list_assistants_heap h registry).1
        (list_assistants_heap h registry).2 k a) registry =
      dict_content h registry ∧
     dict_content
        (list_assistants_heap (outer_set (list_assistants_heap h registry).1
            (list_assistants_heap h registry).2 k a) registry).1
        (list_assistants_heap (outer_set (list_assistants_heap h registry).1
            (list_assistants_heap h registry).2 k a) registry).2 =
      dict_content h registry) ∧
    (outer_entries (outer_del (list_assistants_heap h registry).1
        (list_assistants_heap h registry).2 k) registry =
      outer_entries h registry ∧
     dict_content (outer_del (list_assistants_heap h registry).1
        (list_assistants_heap h registry).2 k) registry =
      dict_content h registry) := by
  have h1wf : ((list_assistants_heap h registry).1).wf :=
    wf_list_assistants_heap h registry hwf
  have h1reg : registry < ((list_assistants_heap h registry).1).next := by
    simp [list_assistants_heap]
    omega
  have hret : (list_assistants_heap h registry).2 = h.next := rfl
  have hretne : (list_assistants_heap h registry).2 ≠ registry := by
    rw [hret]; omega
  have hcall1 := list_assistants_heap_content h registry hwf hreg
  have hcontent1 : dict_content (list_assistants_heap h registry).1 registry =
      dict_content h registry := by
    simp only [dict_content]
    rw [hcall1.2]
    rfl
  -- well-formedness and registry bound for the heap after the top-level write
  have hsetwf : (outer_set (list_assistants_heap h registry).1
      (list_assistants_heap h registry).2 k a).wf := by
    apply wf_outer_write _ _ _ h1wf
    rw [hret]
    simp [list_assistants_heap]
  have hsetentries : outer_entries (outer_set (list_assistants_heap h registry).1
      (list_assistants_heap h registry).2 k a) registry =
      outer_entries h registry := by
    simp only [outer_set, outer_entries]
    rw [dict_get_set_ne _ _ _ _ hretne]
    exact hcall1.2
  have hsetcontent : dict_content (outer_set (list_assistants_heap h registry).1
      (list_assistants_heap h registry).2 k a) registry =
      dict_content h registry := by
    simp only [dict_content]
    rw [hsetentries]
    rfl
  have hdelentries : outer_entries (outer_del (list_assistants_heap h registry).1
      (list_assistants_heap h registry).2 k) registry =
      outer_entries h registry := by
    simp only [outer_del, outer_entries]
    rw [dict_get_set_ne _ _ _ _ hretne]
    exact hcall1.2
  have hdelcontent : dict_content (outer_del (list_assistants_heap h registry).1
      (list_assistants_heap h registry).2 k) registry =
      dict_content h registry := by
    simp only [dict_content]
    rw [hdelentries]
    rfl
  refine ⟨?_, ⟨hsetentries, hsetcontent, ?_⟩, hdelentries, hdelcontent⟩
  · rw [hcall1.1, (list_assistants_heap_content _ registry h1wf h1reg).1,
        hcontent1]
  · have hsetreg : registry < (outer_set (list_assistants_heap h registry).1
        (list_assistants_heap h registry).2 k a).next := h1reg
    rw [(list_assistants_heap_content _ registry hsetwf hsetreg).1,
        hsetcontent]

/-- Witness for C3 (amended): on the concrete one-assistant heap, deleting
the `"chatbot"` entry of the returned copy leaves the registry's content
unchanged. -/
theorem list_assistants_defensive_top_level_witness :
    example_heap.wf ∧ (100 : Nat) < example_heap.next ∧
    dict_content (outer_del (list_assistants_heap example_heap 100).1
        (list_assistants_heap example_heap 100).2 "chatbot") 100 =
      dict_content example_heap 100 :=
  ⟨by intro p hp; simp [example_heap] at hp; subst hp; decide,
   by decide,
   (list_assistants_defensive_top_level example_heap 100
       (by intro p hp; simp [example_heap] at hp; subst hp; decide)
       (by decide) "chatbot" 0).2.2.2⟩

end SvelteLanggraph
